import Mathlib

/-!
Verification development for the HARMORYC episodic-memory test battery
(`app.py`).  The definitions below are a shallow embedding of the parts of
the program relevant to the behaviour of the Trial Builder
(`_build_tasks`, `_pick_balanced_trials`, `_get_rng`), the Session State
Machine (`_finalize_current_task`, `_on_choice`, `_go_to_next_task`,
`on_stop`, `_jump_to_question`), the Response Evaluator
(`_evaluate_correctness`, `_annotate_record_metrics`) and the session
persistence of telemetry offsets (`_save_session`).

Modelling conventions:
* Python's `random.Random` is modelled by a deterministic seeded PRNG over
  `Nat` driving a Fisher-Yates-style selection shuffle.  None of the
  claims depend on the exact permutation produced, only on determinism
  and on the shuffle being a permutation, which is proved below.
* Wall-clock / monotonic times are passed as explicit `ℚ` parameters
  (`perf_counter` values in seconds); Python's `int()` truncation of the
  non-negative millisecond quantities is `Int.floor`.
* Python dicts holding task/record data become structures; a key that is
  either absent or bound to `None` becomes `Option.none` (the program
  never distinguishes the two for these keys).
-/

/-- `RANDOM_SEED` constant from `app.py`. -/
def RANDOM_SEED : String := "HARMORYC_V2"

/-- Deterministic seed derived from a Python seed string (models handing a
string to `random.Random`). -/
def strSeed (s : String) : Nat :=
  s.foldl (fun a c => (a * 31 + c.toNat) % 2147483648) 7

/-- `_get_rng` (app.py lines 866-871): fixed mode uses the constant seed,
`per_session` mode uses the composite experiment/subject/session key. -/
def getRngSeed (randomMode experimentName subjectId sessionId : String) : Nat :=
  if randomMode = "per_session" then
    strSeed (experimentName ++ "-" ++ subjectId ++ "-" ++ sessionId)
  else
    strSeed RANDOM_SEED

/-- One linear-congruential step of the PRNG model. -/
def rngNext (s : Nat) : Nat :=
  (s * 1103515245 + 12345) % 2147483648

/-- Fisher-Yates-style selection shuffle: repeatedly draw an index from the
PRNG and move that element to the front of the result.  The `fuel`
argument is instantiated with the length of the list. -/
def shuffleAux {α : Type} : Nat → Nat → List α → List α × Nat
  | s, 0, _ => ([], s)
  | s, _ + 1, [] => ([], s)
  | s, fuel + 1, x :: xs =>
      let v := rngNext s
      let i := v % (x :: xs).length
      let p := shuffleAux v fuel ((x :: xs).eraseIdx i)
      ((x :: xs).getD i x :: p.1, p.2)

/-- Model of `rand.shuffle(l)`: returns the shuffled list and the advanced
PRNG state. -/
def shuffleList {α : Type} (s : Nat) (l : List α) : List α × Nat :=
  shuffleAux s l.length l

-- -------------------------------
-- Catalog data model (external asset catalog consumed by the builder)
-- -------------------------------

structure Room where
  id : String
  name : String
  image : Option String
  timing : String
deriving DecidableEq, Repr

structure Obj where
  id : String
  name : String
  image : Option String
  is_familiar : Bool
  room_id : Option String
  timing : Option String
deriving DecidableEq, Repr

structure Trial where
  id : String
  image : Option String
  is_correct : Bool
deriving DecidableEq, Repr

/-- One entry of a spatial-position choice set. -/
structure Choice where
  id : String
  image : Option String
  is_correct : Bool
deriving DecidableEq, Repr

/-- Per-object position-image table entry (`iib_positions[obj_id]`). -/
structure Positions where
  good : Option String
  bad : Option String
  alt_bad : Option String
deriving DecidableEq, Repr

/-- The catalog handed to the Trial Builder (`self.data`). -/
structure Data where
  experiment_name : String
  rooms : List Room
  familiar_objects : List Obj
  new_objects : List Obj
  rappel_immediat_trials : List Trial
  step5_trials : List Trial
  iib_positions : List (String × Positions)
deriving DecidableEq, Repr

-- Duration constants (app.py lines 52-57)
def STEP1_DURATION_MS : Nat := 10000
def STEP2_DURATION_MS : Nat := 20000
def STEP3_DURATION_MS : Nat := 10000
def STEP4_DURATION_MS : Nat := 10000
def RAPPEL_IMMEDIAT_DURATION_MS : Nat := 10000
def INTER_DELAY_MS : Nat := 3000

def ROOM_GRID_ORDER : List String :=
  ["room8", "room5", "room3", "room7", "room4", "room6", "room10", "room9",
   "room2", "room1"]

/-- A task dict as built by `_build_tasks` / the Stage-II injector.  Keys a
given kind does not use stay at their defaults. -/
structure QTask where
  task_id : String
  kind : String
  stage : String
  object : Option Obj := none
  room : Option Room := none
  rooms : List Room := []
  image : Option String := none
  is_correct : Option Bool := none
  correct_order : Option Nat := none
  choices : List Choice := []
  duration_ms : Nat
deriving DecidableEq, Repr

-- -------------------------------
-- Trial Builder
-- -------------------------------

/-- `_pick_balanced_trials` (app.py lines 873-880). -/
def pickBalancedTrials (trials : List Trial) (s : Nat) (targetEach : Nat) :
    List Trial × Nat :=
  let correct := trials.filter (fun t => t.is_correct)
  let incorrect := trials.filter (fun t => !t.is_correct)
  let pc := shuffleList s correct
  let pi := shuffleList pc.2 incorrect
  if targetEach ≤ pc.1.length ∧ targetEach ≤ pi.1.length then
    (pc.1.take targetEach ++ pi.1.take targetEach, pi.2)
  else
    (pc.1 ++ pi.1, pi.2)

/-- Unfiltered id sequence `[r.get("id") for r in l]`. -/
def roomIds (l : List Room) : List String := l.map Room.id

/-- Filtered id sequence `[r.get("id") for r in l if r.get("id")]`
(truthiness of a string id = non-emptiness). -/
def filteredIds (l : List Room) : List String :=
  (l.map Room.id).filter (fun i => i ≠ "")

/-- The reshuffle loop for the IIA order (app.py lines 613-617): shuffle up
to `fuel` times, stopping as soon as the id sequence differs from the
learning order.  Returns the rooms after the last shuffle performed. -/
def iiaAttempts (s : Nat) (cur : List Room) (learningOrder : List String) :
    Nat → List Room × Nat
  | 0 => (cur, s)
  | n + 1 =>
      let p := shuffleList s cur
      if roomIds p.1 ≠ learningOrder then p
      else iiaAttempts p.2 p.1 learningOrder n

/-- IIA room sequence: five reshuffle attempts, then the rotate-by-one
fallback (app.py lines 613-619). -/
def iiaRooms (s : Nat) (rooms : List Room) (learningOrder : List String) :
    List Room × Nat :=
  let p := iiaAttempts s rooms learningOrder 5
  if roomIds p.1 = learningOrder ∧ p.1 ≠ [] then
    (p.1.drop 1 ++ p.1.take 1, p.2)
  else p

/-- Result of `_build_tasks` together with the two room orders it stores on
the session object. -/
structure BuildResult where
  tasks : List QTask
  learning_room_order : List String
  iia_room_order : List String
deriving DecidableEq, Repr

/-- The recall-mode branch of `_build_tasks` (app.py lines 607-687). -/
def buildTasksRecall (d : Data) (s0 : Nat) : BuildResult :=
  let pLearning := shuffleList s0 d.rooms
  let learningOrder := filteredIds pLearning.1
  let pIia := iiaRooms pLearning.2 d.rooms learningOrder
  let iiaOrder := filteredIds pIia.1
  let pStep1 := shuffleList pIia.2 (d.familiar_objects ++ d.new_objects)
  let step1Tasks := (pStep1.1.enumFrom 1).map (fun p =>
    { task_id := "step1_" ++ p.2.id ++ "_" ++ toString p.1,
      kind := "step1", stage := "I", object := some p.2,
      duration_ms := STEP1_DURATION_MS : QTask })
  let pStep3 := shuffleList pStep1.2 d.rooms
  let step3Tasks := pStep3.1.map (fun room =>
    { task_id := "step3_" ++ room.id, kind := "step3_daynight",
      stage := "III", room := some room,
      duration_ms := STEP3_DURATION_MS : QTask })
  let step4Tasks := pStep3.1.map (fun room =>
    { task_id := "step4_" ++ room.id, kind := "step4_order", stage := "IV",
      room := some room,
      correct_order :=
        if room.id ∈ learningOrder then
          some (learningOrder.indexOf room.id + 1)
        else none,
      duration_ms := STEP4_DURATION_MS : QTask })
  let pStep5pick := pickBalancedTrials d.step5_trials pStep3.2 5
  let pStep5 := shuffleList pStep5pick.2 pStep5pick.1
  let step5Tasks := pStep5.1.map (fun t =>
    { task_id := "step5_" ++ t.id, kind := "step5", stage := "V",
      image := t.image, is_correct := some (!t.is_correct),
      duration_ms := STEP4_DURATION_MS : QTask })
  let pRiPick := pickBalancedTrials d.rappel_immediat_trials pStep5.2 5
  let pRi := shuffleList pRiPick.2 pRiPick.1
  let riTasks := pRi.1.map (fun t =>
    { task_id := "ri_end_" ++ t.id, kind := "rappel_immediat",
      stage := "RI_END", image := t.image, is_correct := some t.is_correct,
      duration_ms := RAPPEL_IMMEDIAT_DURATION_MS : QTask })
  { tasks := step1Tasks ++ step3Tasks ++ step4Tasks ++ step5Tasks ++ riTasks,
    learning_room_order := learningOrder,
    iia_room_order := iiaOrder }

/-- `_build_tasks` (app.py lines 584-687): dispatch on the task mode. -/
def buildTasks (d : Data) (taskMode : String) (s0 : Nat) : BuildResult :=
  if taskMode = "rappel_immediat" then
    let pPick := pickBalancedTrials d.rappel_immediat_trials s0 5
    let pRi := shuffleList pPick.2 pPick.1
    { tasks := pRi.1.map (fun t =>
        { task_id := t.id, kind := "rappel_immediat", stage := "RI",
          image := t.image, is_correct := some t.is_correct,
          duration_ms := RAPPEL_IMMEDIAT_DURATION_MS : QTask }),
      learning_room_order := [],
      iia_room_order := [] }
  else
    buildTasksRecall d s0

-- -------------------------------
-- Response Evaluator
-- -------------------------------

/-- `bool(task.get("object", {}).get("is_familiar"))`. -/
def objFamiliar (t : QTask) : Bool :=
  (t.object.map Obj.is_familiar).getD false

/-- `str(correct_order)` as Python renders it (`str(None) = "None"`). -/
def orderStr : Option Nat → String
  | none => "None"
  | some n => toString n

/-- `_evaluate_correctness` (app.py lines 1428-1467).  The `timeout`
argument of the Python function is unused by its body and omitted here. -/
def evaluateCorrectness (t : QTask) (response : Option String) :
    Option Bool :=
  if t.kind = "step2_spatial" ∧ objFamiliar t = false then none
  else if response = none ∨ response = some "je_ne_sais_pas" ∨
      response = some "ne_repond_pas" then some false
  else
    match response with
    | none => none
    | some r =>
      if t.kind = "step1" then
        if r = "yes" then some (objFamiliar t)
        else if r = "no" then some (!objFamiliar t)
        else none
      else if t.kind = "step2_where" then
        match t.object with
        | some obj =>
            if obj.is_familiar = false then some false
            else some (obj.room_id = some r)
        | none => some false
      else if t.kind = "step2_spatial" then
        match (t.choices.filter (fun c => c.id = r)).head? with
        | some c => some c.is_correct
        | none => some false
      else if t.kind = "step3_daynight" then
        match t.room with
        | some room => some (room.timing = r)
        | none => some false
      else if t.kind = "step4_order" then
        some (r = orderStr t.correct_order)
      else if t.kind = "step5" ∨ t.kind = "rappel_immediat" then
        if r = "correct" then some (t.is_correct.getD false)
        else if r = "incorrect" then some (!t.is_correct.getD false)
        else none
      else none

/-- A finalized response record (the dict built in `_finalize_current_task`
lines 1321-1360 plus the fields added by `_annotate_record_metrics`).
Optional fields are keys that are only written on some paths. -/
structure Record where
  task_id : String
  stage : String
  kind : String
  started_at : Option String
  ended_at : String
  duration_ms : Nat
  actual_elapsed_ms : Int
  response : Option String
  timeout : Bool
  is_correct : Option Bool := none
  object : Option Obj := none
  image : Option String := none
  expected_is_correct : Option Bool := none
  room : Option Room := none
  correct_order : Option Nat := none
  choices : List Choice := []
  response_category : Option String := none
  expected_seen : Option Bool := none
  expected_room_id : Option String := none
  response_room_id : Option String := none
  response_choice_id : Option String := none
  expected_choice_id : Option String := none
  expected_timing : Option String := none
  response_timing : Option String := none
  expected_order : Option Nat := none
  response_order : Option String := none
  error_distance : Option Int := none
deriving DecidableEq, Repr

/-- `_annotate_record_metrics` (app.py lines 1469-1550). -/
def annotateRecordMetrics (t : QTask) (response : Option String)
    (rec : Record) : Record :=
  match response with
  | none => { rec with response_category := some "no_response" }
  | some r =>
    if r = "ne_repond_pas" then
      { rec with response_category := some "no_response" }
    else if r = "je_ne_sais_pas" then
      { rec with response_category := some "dont_know" }
    else if t.kind = "step1" then
      { rec with
        expected_seen := some (objFamiliar t),
        response_category := some (
          if r = "yes" then
            (if objFamiliar t then "hit" else "false_alarm")
          else if r = "no" then
            (if objFamiliar t then "miss" else "correct_rejection")
          else "other") }
    else if t.kind = "step2_where" then
      { rec with
        expected_room_id := (t.object.map Obj.room_id).getD none,
        response_room_id := some r,
        response_category := some (
          if objFamiliar t = false then "no_correct_answer"
          else if (t.object.map Obj.room_id).getD none = some r then
            "correct_room"
          else "wrong_room") }
    else if t.kind = "step2_spatial" then
      if objFamiliar t = false then
        { rec with
          response_choice_id := some r,
          response_category := some "no_correct_answer" }
      else
        { rec with
          response_choice_id := some r,
          expected_choice_id :=
            ((t.choices.filter (fun c => c.is_correct)).head?).map Choice.id,
          response_category := some (
            if ((t.choices.filter (fun c => c.is_correct)).head?).map
                Choice.id = some r then
              "correct_position"
            else "wrong_position") }
    else if t.kind = "step3_daynight" then
      { rec with
        expected_timing := t.room.map Room.timing,
        response_timing := some r,
        response_category := some (
          if t.room.map Room.timing = some r then "correct_time"
          else "wrong_time") }
    else if t.kind = "step4_order" then
      match t.correct_order, r.toNat? with
      | some expected, some ri =>
          { rec with
            expected_order := some expected,
            response_order := some r,
            error_distance := some ((ri : Int) - (expected : Int)).natAbs,
            response_category :=
              some (if ri = expected then "correct_order" else "wrong_order") }
      | _, _ =>
          { rec with
            expected_order := t.correct_order,
            response_order := some r,
            response_category := some "wrong_order" }
    else if t.kind = "step5" ∨ t.kind = "rappel_immediat" then
      { rec with
        expected_is_correct := some (t.is_correct.getD false),
        response_category := some (
          if rec.is_correct = some true then "correct_scene"
          else "wrong_scene") }
    else rec

-- -------------------------------
-- Session State Machine
-- -------------------------------

/-- One stage tally (`{"total": .., "correct": ..}`). -/
structure Score where
  total : Nat
  correct : Nat
deriving DecidableEq, Repr

/-- The eight keys of `self.stage_scores` (app.py lines 264-273). -/
def stageKeys : List String :=
  ["I", "IIA", "IIB", "III", "IV", "V", "RI", "RI_END"]

/-- The session / driver state owned by the single-threaded driver. -/
structure AppState where
  running : Bool
  data : Data
  task_queue : List QTask
  current_task_index : Int
  current_task : Option QTask
  task_started_at_iso : Option String
  task_start_perf : Option ℚ
  task_duration_ms : Nat
  task_active : Bool
  intermission_active : Bool
  intermission_start_perf : Option ℚ
  selected_choice_id : Option String
  records : List Record
  stage_scores : String → Score
  global_rng : Nat

/-- Session state right after `on_start` resets (app.py lines 495-520),
with the freshly built queue installed. -/
def initialState (d : Data) (queue : List QTask) (rng : Nat) : AppState :=
  { running := true
    data := d
    task_queue := queue
    current_task_index := -1
    current_task := none
    task_started_at_iso := none
    task_start_perf := none
    task_duration_ms := 0
    task_active := false
    intermission_active := false
    intermission_start_perf := none
    selected_choice_id := none
    records := []
    stage_scores := fun _ => { total := 0, correct := 0 }
    global_rng := rng }

/-- `max(0.0, min(elapsed_ms, duration))` truncated to an integer
(app.py line 1314) — computed by the code but not stored anywhere. -/
def responseDurationMsOf (elapsedMs : ℚ) (durationMs : Nat) : Int :=
  ⌊max 0 (min elapsedMs (durationMs : ℚ))⌋

/-- `int(max(0.0, elapsed_ms))` (app.py line 1315). -/
def actualElapsedMsOf (elapsedMs : ℚ) : Int :=
  ⌊max 0 elapsedMs⌋

/-- The last room dict for a given id (`{r.get("id"): r for r in rooms}`
keeps the last duplicate). -/
def lookupRoom (rooms : List Room) (rid : String) : Option Room :=
  rooms.reverse.find? (fun r => r.id = rid)

/-- `_rooms_by_ids` (app.py lines 1010-1012). -/
def roomsByIds (ids : List String) (rooms : List Room) : List Room :=
  ids.filterMap (lookupRoom rooms)

/-- The canonical room sequence used for IIA tasks: grid order first, then
any remaining rooms (app.py lines 1368-1371). -/
def orderedRoomsFor (rooms : List Room) : List Room :=
  roomsByIds ROOM_GRID_ORDER rooms ++
    rooms.filter (fun r => r ∉ roomsByIds ROOM_GRID_ORDER rooms)

/-- The pre-shuffle IIB choice set for an object (app.py lines 1372-1386). -/
def iibChoicesFor (d : Data) (obj : Obj) : List Choice :=
  let pos := ((d.iib_positions.filter (fun p => p.1 = obj.id)).head?).map
    Prod.snd
  let good := (pos.map Positions.good).getD none
  let bad := (pos.map Positions.bad).getD none
  let altBad := (pos.map Positions.alt_bad).getD none
  if obj.is_familiar then
    [{ id := "good", image := good, is_correct := true },
     { id := "bad", image := bad, is_correct := false }]
  else
    [{ id := "bad1", image := bad, is_correct := false },
     { id := "bad2", image := altBad, is_correct := false }]

/-- The Stage-IIA room-locate follow-up task (app.py lines 1390-1397). -/
def iiaTaskFor (d : Data) (obj : Obj) : QTask :=
  { task_id := "step2_where_" ++ obj.id
    kind := "step2_where"
    stage := "IIA"
    object := some obj
    rooms := orderedRoomsFor d.rooms
    duration_ms := STEP2_DURATION_MS }

/-- The Stage-IIB spatial-position follow-up task (app.py lines
1398-1405); the choice shuffle draws from the module-level `random`,
modelled by the driver's `global_rng`. -/
def iibTaskFor (d : Data) (obj : Obj) (rng : Nat) : QTask :=
  { task_id := "step2_spatial_" ++ obj.id
    kind := "step2_spatial"
    stage := "IIB"
    object := some obj
    choices := (shuffleList rng (iibChoicesFor d obj)).1
    duration_ms := STEP2_DURATION_MS }

/-- The two follow-up tasks spliced in after a Stage-I "yes"
(app.py lines 1388-1406), with the advanced shuffle state. -/
def injectedTasks (d : Data) (obj : Obj) (rng : Nat) : List QTask × Nat :=
  ([iiaTaskFor d obj, iibTaskFor d obj rng],
    (shuffleList rng (iibChoicesFor d obj)).2)

/-- Stage-score update: `total += 1`, and `correct += 1` when the response
was correct (app.py lines 1337-1340), guarded by key membership. -/
def scoresAfter (scores : String → Score) (stage : String)
    (correct : Option Bool) : String → Score :=
  match correct with
  | none => scores
  | some b =>
      if stage ∈ stageKeys then
        fun st =>
          if st = stage then
            { total := (scores st).total + 1,
              correct := (scores st).correct + (if b then 1 else 0) }
          else scores st
      else scores

/-- The response-record dict as appended to `self.records`
(app.py lines 1321-1362): the base dict, the conditional payload copies,
and the metric annotations.  Note the clamped `response_duration_ms`
computed at line 1314 is *not* among its fields. -/
def mkRecord (task : QTask) (startedIso : Option String) (endIso : String)
    (durationMs : Nat) (actualMs : Int) (responseValue : Option String)
    (timeout : Bool) (correct : Option Bool) : Record :=
  annotateRecordMetrics task responseValue
    { task_id := task.task_id
      stage := task.stage
      kind := task.kind
      started_at := startedIso
      ended_at := endIso
      duration_ms := durationMs
      actual_elapsed_ms := actualMs
      response := responseValue
      timeout := timeout
      is_correct := correct
      object := task.object
      image := task.image
      expected_is_correct := task.is_correct
      room := task.room
      correct_order := task.correct_order
      choices := task.choices }

/-- The response token recorded at finalization (app.py lines 1317-1319). -/
def responseValueOf (timeout : Bool) (selected : Option String) :
    Option String :=
  if timeout ∧ selected = none then some "ne_repond_pas" else selected

/-- `_finalize_current_task` (app.py lines 1305-1416).  `endPerf` is the
`time.perf_counter()` sample taken at line 1312 and `endIso` the
human-readable timestamp of line 1326. -/
def finalizeCurrentTask (s : AppState) (endPerf : ℚ) (endIso : String)
    (timeout : Bool) (force : Bool) : AppState :=
  if s.task_active = false ∧ force = false then s
  else
    match s.current_task, s.task_start_perf with
    | some task, some startPerf =>
        let elapsedMs : ℚ := (endPerf - startPerf) * 1000
        let responseValue := responseValueOf timeout s.selected_choice_id
        let correct := evaluateCorrectness task responseValue
        let record := mkRecord task s.task_started_at_iso endIso
          s.task_duration_ms (actualElapsedMsOf elapsedMs) responseValue
          timeout correct
        let insertAt := (s.current_task_index + 1).toNat
        let inj :=
          if task.kind = "step1" ∧ responseValue = some "yes" then
            match task.object with
            | some obj =>
                let p := injectedTasks s.data obj s.global_rng
                (s.task_queue.take insertAt ++ p.1 ++
                  s.task_queue.drop insertAt, p.2)
            | none => (s.task_queue, s.global_rng)
          else (s.task_queue, s.global_rng)
        { s with
          records := s.records ++ [record]
          stage_scores := scoresAfter s.stage_scores task.stage correct
          task_queue := inj.1
          global_rng := inj.2
          task_active := false
          task_start_perf := none
          task_started_at_iso := none
          selected_choice_id := none
          intermission_active := true
          intermission_start_perf := some endPerf }
    | _, _ => s

/-- `_on_choice` (app.py lines 1299-1303). -/
def onChoice (s : AppState) (choiceId : String) (endPerf : ℚ)
    (endIso : String) : AppState :=
  if s.task_active = false then s
  else
    finalizeCurrentTask { s with selected_choice_id := some choiceId }
      endPerf endIso false true

/-- `_show_task` preamble (app.py lines 718-726): activates the task and
captures the monotonic start marker. -/
def showTask (s : AppState) (task : QTask) (nowPerf : ℚ) (nowIso : String) :
    AppState :=
  { s with
    task_active := true
    intermission_active := false
    task_started_at_iso := some nowIso
    task_start_perf := some nowPerf
    task_duration_ms := task.duration_ms
    selected_choice_id := none }

/-- `on_stop` (app.py lines 523-552), persistence and UI aside. -/
def stopSession (s : AppState) (nowPerf : ℚ) (nowIso : String) : AppState :=
  let s1 := finalizeCurrentTask s nowPerf nowIso true false
  if s1.running = false then s1
  else
    { s1 with
      running := false
      task_active := false
      intermission_active := false }

/-- `_go_to_next_task` (app.py lines 689-697): advance the cursor; stop when
the queue is exhausted, otherwise activate the next task. -/
def goToNextTask (s : AppState) (nowPerf : ℚ) (nowIso : String) : AppState :=
  if s.running = false then s
  else
    let i := s.current_task_index + 1
    if (s.task_queue.length : Int) ≤ i then
      stopSession { s with current_task_index := i } nowPerf nowIso
    else
      match s.task_queue.get? i.toNat with
      | some task =>
          showTask
            { s with
              current_task_index := i
              current_task := some task } task nowPerf nowIso
      | none => s

/-- `_timer_tick` (app.py lines 562-579): intermission handoff and the
deadline check against the monotonic start marker. -/
def timerTick (s : AppState) (nowPerf : ℚ) (nowIso : String) : AppState :=
  if s.running = false then s
  else
    match s.intermission_active, s.intermission_start_perf with
    | true, some ip =>
        if ((nowPerf - ip) * 1000 : ℚ) ≥ (INTER_DELAY_MS : ℚ) then
          goToNextTask
            { s with
              intermission_active := false
              intermission_start_perf := none } nowPerf nowIso
        else s
    | _, _ =>
        match s.task_active, s.task_start_perf with
        | true, some tp =>
            if ((nowPerf - tp) * 1000 : ℚ) ≥ (s.task_duration_ms : ℚ) then
              finalizeCurrentTask s nowPerf nowIso true true
            else s
        | _, _ => s

/-- `_jump_to_question` (app.py lines 2091-2108). -/
def jumpToQuestion (s : AppState) (index : Nat) (nowPerf : ℚ)
    (nowIso : String) : AppState :=
  if s.running = false ∨ (s.task_queue.length : Int) ≤ (index : Int) then s
  else
    let s1 :=
      if s.task_active then finalizeCurrentTask s nowPerf nowIso true true
      else s
    goToNextTask { s1 with
      current_task_index := (index : Int) - 1
      intermission_active := false
      intermission_start_perf := none } nowPerf nowIso

/-- One driver-context event: everything that can mutate session state
after `on_start`. -/
inductive Ev
  | choice (c : String) (tNow : ℚ) (iso : String)
  | tick (tNow : ℚ) (iso : String)
  | stop (tNow : ℚ) (iso : String)
  | next (tNow : ℚ) (iso : String)
  | jump (i : Nat) (tNow : ℚ) (iso : String)

/-- Apply one event. -/
def stepEv (s : AppState) : Ev → AppState
  | Ev.choice c t iso => onChoice s c t iso
  | Ev.tick t iso => timerTick s t iso
  | Ev.stop t iso => stopSession s t iso
  | Ev.next t iso => goToNextTask s t iso
  | Ev.jump i t iso => jumpToQuestion s i t iso

/-- Run a sequence of driver events. -/
def runEvents (s : AppState) : List Ev → AppState
  | [] => s
  | e :: es => runEvents (stepEv s e) es

-- -------------------------------
-- Telemetry serialization (session save)
-- -------------------------------

/-- A buffered telemetry message (payload kept opaque). -/
structure VrMsg where
  received_at : String
  received_perf : ℚ
  payload : String
deriving DecidableEq, Repr

/-- A serialized `vr_messages` entry of the session output. -/
structure VrOut where
  received_at : String
  relative_ms : Int
  payload : String
deriving DecidableEq, Repr

/-- One serialized entry (app.py lines 1939-1946). -/
def vrSerializeOne (startPerf : ℚ) (m : VrMsg) : VrOut :=
  { received_at := m.received_at
    relative_ms := ⌊max 0 ((m.received_perf - startPerf) * 1000)⌋
    payload := m.payload }

/-- `_save_session`'s telemetry pass (app.py lines 1936-1946):
`start_perf = self.session_start_perf or time.perf_counter()`. -/
def vrSerialize (sessionStartPerf : Option ℚ) (nowPerf : ℚ)
    (msgs : List VrMsg) : List VrOut :=
  let startPerf := sessionStartPerf.getD nowPerf
  msgs.map (vrSerializeOne startPerf)

-- -------------------------------
-- Concrete demonstration inputs (used to instantiate the theorems)
-- -------------------------------

/-- A familiar object of the V2 catalog shape. -/
def objOF1 : Obj :=
  { id := "OF1"
    name := "Objet familier 1"
    image := none
    is_familiar := true
    room_id := some "room1"
    timing := some "jour" }

/-- A novel object of the V2 catalog shape. -/
def objNO1 : Obj :=
  { id := "NO1"
    name := "Nouvel objet 1"
    image := none
    is_familiar := false
    room_id := none
    timing := none }

def demoRooms : List Room :=
  (List.range 10).map (fun i =>
    { id := "room" ++ toString (i + 1)
      name := "Salle " ++ toString (i + 1)
      image := none
      timing := if i < 5 then "jour" else "nuit" })

def demoData : Data :=
  { experiment_name := "HARMORYC_V2"
    rooms := demoRooms
    familiar_objects := [objOF1]
    new_objects := [objNO1]
    rappel_immediat_trials := (List.range 12).map (fun i =>
      { id := "ri" ++ toString i, image := none, is_correct := i % 2 == 0 })
    step5_trials := (List.range 12).map (fun i =>
      { id := "s5" ++ toString i, image := none, is_correct := i % 2 == 0 })
    iib_positions :=
      [("OF1", { good := some "g.jpg", bad := some "b.jpg",
                 alt_bad := some "ab.jpg" })] }

/-- A catalog with a single room: shuffling a one-element list always
reproduces it, so the rotate-by-one fallback cannot change it either. -/
def oneRoomData : Data :=
  { demoData with
    rooms := [{ id := "room1", name := "Salle 1", image := none,
                timing := "jour" }] }

def step1DemoTask : QTask :=
  { task_id := "step1_OF1_1"
    kind := "step1"
    stage := "I"
    object := some objOF1
    duration_ms := STEP1_DURATION_MS }

/-- A room-locate task over a novel (unfamiliar) object. -/
def whereUnfamTask : QTask :=
  { task_id := "step2_where_NO1"
    kind := "step2_where"
    stage := "IIA"
    object := some objNO1
    rooms := demoRooms
    duration_ms := STEP2_DURATION_MS }

/-- A room-locate task over a familiar object. -/
def whereFamTask : QTask :=
  { task_id := "step2_where_OF1"
    kind := "step2_where"
    stage := "IIA"
    object := some objOF1
    rooms := demoRooms
    duration_ms := STEP2_DURATION_MS }

/-- A spatial-position task over a novel object. -/
def spatialUnfamTask : QTask :=
  { task_id := "step2_spatial_NO1"
    kind := "step2_spatial"
    stage := "IIB"
    object := some objNO1
    choices := [{ id := "bad1", image := none, is_correct := false },
                { id := "bad2", image := none, is_correct := false }]
    duration_ms := STEP2_DURATION_MS }

/-- A driver state in the middle of a session: the first Stage-I task is
active, no choice selected yet. -/
def demoActiveState : AppState :=
  { initialState demoData [step1DemoTask, whereFamTask] 99 with
    current_task_index := 0
    current_task := some step1DemoTask
    task_active := true
    task_start_perf := some 5
    task_started_at_iso := some "2026-01-01T00:00:00+00:00"
    task_duration_ms := STEP1_DURATION_MS }

/-- A short driver run: activate the first task, answer "yes", stop. -/
def demoEvents : List Ev :=
  [Ev.next 1 "t1", Ev.choice "yes" 3 "t2", Ev.stop 4 "t3"]

/-- The response record produced when `demoActiveState` receives "yes" at
`perf = 7` (elapsed 2 s): its complete field set, listing the unclamped
`actual_elapsed_ms` value; the clamped value of app.py line 1314 is
stored nowhere. -/
def demoYesRecord : Record :=
  { task_id := "step1_OF1_1"
    stage := "I"
    kind := "step1"
    started_at := some "2026-01-01T00:00:00+00:00"
    ended_at := "iso"
    duration_ms := 10000
    actual_elapsed_ms := 2000
    response := some "yes"
    timeout := false
    is_correct := some true
    object := some objOF1
    response_category := some "hit"
    expected_seen := some true }

/-- Number of finalized records carrying stage `st` with a non-null
correctness. -/
def recordCountTotal (recs : List Record) (st : String) : Nat :=
  (recs.filter (fun r => r.stage = st ∧ r.is_correct ≠ none)).length

/-- Number of finalized records carrying stage `st` scored correct. -/
def recordCountCorrect (recs : List Record) (st : String) : Nat :=
  (recs.filter (fun r => r.stage = st ∧ r.is_correct = some true)).length

/-- The C7 invariant: every tracked stage tally agrees with the finalized
records. -/
def scoresConsistent (s : AppState) : Prop :=
  ∀ st ∈ stageKeys,
    (s.stage_scores st).total = recordCountTotal s.records st ∧
    (s.stage_scores st).correct = recordCountCorrect s.records st

/-- A telemetry message received before the session start marker. -/
def earlyVrMsg : VrMsg :=
  { received_at := "a", received_perf := 9, payload := "x" }

-- -------------------------------
-- Lemmas and theorems
-- -------------------------------

theorem getD_cons_eraseIdx_perm {α : Type} :
    ∀ (l : List α) (i : Nat) (d : α), i < l.length →
      List.Perm (l.getD i d :: l.eraseIdx i) l := by
  intro l
  induction l with
  | nil => intro i d h; simp at h
  | cons x xs ih =>
      intro i d h
      cases i with
      | zero => exact List.Perm.refl _
      | succ n =>
          have hn : n < xs.length := by
            simp only [List.length_cons] at h
            omega
          have hp := ih n d hn
          have he : (x :: xs).eraseIdx (n + 1) = x :: xs.eraseIdx n := rfl
          have hg : (x :: xs).getD (n + 1) d = xs.getD n d := rfl
          rw [he, hg]
          exact List.Perm.trans (List.Perm.swap x _ _) (List.Perm.cons x hp)

theorem shuffleAux_perm {α : Type} :
    ∀ (fuel : Nat) (l : List α) (s : Nat), l.length ≤ fuel →
      List.Perm (shuffleAux s fuel l).1 l := by
  intro fuel
  induction fuel with
  | zero =>
      intro l s h
      have : l = [] := List.eq_nil_of_length_eq_zero (Nat.le_zero.mp h)
      subst this
      exact List.Perm.refl _
  | succ n ih =>
      intro l s h
      cases l with
      | nil => exact List.Perm.refl _
      | cons x xs =>
          have hi : rngNext s % (x :: xs).length < (x :: xs).length :=
            Nat.mod_lt _ (by simp)
          have hlen : ((x :: xs).eraseIdx
              (rngNext s % (x :: xs).length)).length ≤ n := by
            rw [List.length_eraseIdx_of_lt hi]
            simp only [List.length_cons] at *
            omega
          have hrec := ih ((x :: xs).eraseIdx (rngNext s % (x :: xs).length))
            (rngNext s) hlen
          exact List.Perm.trans (List.Perm.cons _ hrec)
            (getD_cons_eraseIdx_perm _ _ x hi)

theorem shuffleList_perm {α : Type} (s : Nat) (l : List α) :
    List.Perm (shuffleList s l).1 l :=
  shuffleAux_perm l.length l s (Nat.le_refl _)


/-- Under the hypotheses that a task is active with a recorded start
marker, finalization appends exactly one record, built by `mkRecord`. -/
theorem finalize_records_eq (s : AppState) (e : ℚ) (i : String)
    (tm f : Bool) (task : QTask) (p : ℚ)
    (hact : s.task_active = true) (hcur : s.current_task = some task)
    (hsp : s.task_start_perf = some p) :
    (finalizeCurrentTask s e i tm f).records =
      s.records ++ [mkRecord task s.task_started_at_iso i
        s.task_duration_ms (actualElapsedMsOf ((e - p) * 1000))
        (responseValueOf tm s.selected_choice_id) tm
        (evaluateCorrectness task
          (responseValueOf tm s.selected_choice_id))] := by
  simp [finalizeCurrentTask, hact, hcur, hsp]

/-- C2: in the fixed-seed randomization mode, queue construction does not
depend on the per-run session identity at all: two Trial Builder runs over
the same catalog and task mode — with arbitrary (e.g. fresh) experiment
names, subject ids and session ids — produce identical task queues and
room orders. -/
theorem c2_fixed_seed_determinism (d : Data) (taskMode : String)
    (e1 su1 se1 e2 su2 se2 : String) :
    buildTasks d taskMode (getRngSeed "fixed" e1 su1 se1) =
      buildTasks d taskMode (getRngSeed "fixed" e2 su2 se2) := by
  have h : ∀ e su se : String,
      getRngSeed "fixed" e su se = strSeed RANDOM_SEED := by
    intro e su se
    simp [getRngSeed]
  rw [h, h]

/-- C10: every serialized telemetry entry carries a non-negative
`relative_ms` offset, and a message whose monotonic receipt time precedes
the session start marker is recorded with offset 0. -/
theorem c10_vr_relative_ms_clamped (startPerf : Option ℚ) (nowPerf : ℚ)
    (msgs : List VrMsg) :
    (∀ o ∈ vrSerialize startPerf nowPerf msgs, 0 ≤ o.relative_ms) ∧
    (∀ m ∈ msgs, m.received_perf ≤ startPerf.getD nowPerf →
      (vrSerializeOne (startPerf.getD nowPerf) m).relative_ms = 0) := by
  constructor
  · intro o ho
    simp only [vrSerialize, List.mem_map] at ho
    obtain ⟨m, _, rfl⟩ := ho
    simp only [vrSerializeOne]
    exact (Int.floor_nonneg).mpr (le_max_left 0 _)
  · intro m _ hle
    simp only [vrSerializeOne]
    have h0 : (m.received_perf - startPerf.getD nowPerf) * 1000 ≤ 0 := by
      have : m.received_perf - startPerf.getD nowPerf ≤ 0 := by linarith
      nlinarith
    rw [max_eq_left h0, Int.floor_zero]

theorem c10_vr_relative_ms_clamped_witness :
    earlyVrMsg ∈ [earlyVrMsg] ∧ earlyVrMsg.received_perf ≤
      (Option.getD (some 10) 99) ∧
    (vrSerializeOne (Option.getD (some 10) 99) earlyVrMsg).relative_ms = 0 :=
  ⟨by simp, by norm_num [earlyVrMsg], (c10_vr_relative_ms_clamped (some 10) 99
    [earlyVrMsg]).2 earlyVrMsg (by simp) (by norm_num [earlyVrMsg])⟩

/-- C9: the code clamps the elapsed time to the nominal duration
(`response_duration_ms`, app.py line 1314) and that clamped value indeed
never exceeds the duration nor the unclamped `actual_elapsed_ms`; but the
record appended to `self.records` keeps only the unclamped value (see the
field list of `mkRecord` / `Record`): the concrete run below finalizes a
task after 2000 ms and the resulting record equals `demoYesRecord`, which
carries `actual_elapsed_ms` and no clamped counterpart. -/
theorem c9_response_duration_computed_but_dropped :
    (∀ (e : ℚ) (d : Nat), responseDurationMsOf e d ≤ (d : Int) ∧
      responseDurationMsOf e d ≤ actualElapsedMsOf e) ∧
    (onChoice demoActiveState "yes" 7 "iso").records = [demoYesRecord] := by
  constructor
  · intro e d
    constructor
    · have h1 : max 0 (min e (d : ℚ)) ≤ (d : ℚ) :=
        max_le (by positivity) (min_le_right _ _)
      have h2 := Int.floor_mono h1
      rwa [Int.floor_natCast] at h2
    · exact Int.floor_mono (max_le_max (le_refl 0) (min_le_left _ _))
  · have hrec := finalize_records_eq
      { demoActiveState with selected_choice_id := some "yes" }
      7 "iso" false true step1DemoTask 5 rfl rfl rfl
    have harith : actualElapsedMsOf (((7 : ℚ) - 5) * 1000) = 2000 := by
      unfold actualElapsedMsOf
      norm_num
    rw [onChoice] at *
    simp only [demoActiveState, initialState] at hrec ⊢
    rw [if_neg (by simp)]
    rw [hrec, harith]
    rfl

/-- C6: for both sentinel responses ("je_ne_sais_pas" and the
"ne_repond_pas" timeout token) correctness evaluation returns `false`,
never null — except on a spatial-position task over a non-familiar object,
the one task kind the spec designates as having no correct answer, where
it returns null. -/
theorem c6_sentinels_scored_incorrect (t : QTask) (r : String)
    (hr : r = "je_ne_sais_pas" ∨ r = "ne_repond_pas") :
    evaluateCorrectness t (some r) =
      (if t.kind = "step2_spatial" ∧ objFamiliar t = false then none
       else some false) := by
  rcases hr with h | h <;> subst h <;>
    by_cases hk : t.kind = "step2_spatial" ∧ objFamiliar t = false <;>
    simp [evaluateCorrectness, hk]

theorem c6_sentinels_scored_incorrect_witness :
    evaluateCorrectness spatialUnfamTask (some "je_ne_sais_pas") =
      (if spatialUnfamTask.kind = "step2_spatial" ∧
          objFamiliar spatialUnfamTask = false then none
       else some false) :=
  c6_sentinels_scored_incorrect spatialUnfamTask "je_ne_sais_pas"
    (Or.inl rfl)

/-- C5 counterexample: the claim says a room-locate task over a
non-familiar object always evaluates to null, but on such a task the
evaluator returns `some false` for an ordinary room response. -/
theorem c5_counterexample_unfamiliar_scored_false :
    evaluateCorrectness whereUnfamTask (some "room1") = some false := by
  decide

/-- C5 (amended): a room-locate response is scored correct exactly when the
object is familiar and the response names the object's true room (and is
not a sentinel); when the object is not familiar the evaluation is
`some false` — not null — whatever the response. -/
theorem c5_amended_room_locate_scoring (t : QTask) (obj : Obj)
    (hk : t.kind = "step2_where") (ho : t.object = some obj) :
    (∀ r : String,
      (evaluateCorrectness t (some r) = some true ↔
        obj.is_familiar = true ∧ obj.room_id = some r ∧
          r ≠ "je_ne_sais_pas" ∧ r ≠ "ne_repond_pas")) ∧
    (obj.is_familiar = false →
      ∀ r : Option String, evaluateCorrectness t r = some false) := by
  have hkind : t.kind ≠ "step2_spatial" := by rw [hk]; decide
  have hstep1 : t.kind ≠ "step1" := by rw [hk]; decide
  constructor
  · intro r
    by_cases h1 : r = "je_ne_sais_pas"
    · subst h1
      simp [evaluateCorrectness, hkind]
    by_cases h2 : r = "ne_repond_pas"
    · subst h2
      simp [evaluateCorrectness, hkind]
    by_cases hf : obj.is_familiar <;>
      simp [evaluateCorrectness, hkind, hstep1, hk, ho, h1, h2, hf]
  · intro hf r
    cases r with
    | none => simp [evaluateCorrectness, hkind]
    | some r =>
        by_cases h1 : r = "je_ne_sais_pas"
        · subst h1; simp [evaluateCorrectness, hkind]
        by_cases h2 : r = "ne_repond_pas"
        · subst h2; simp [evaluateCorrectness, hkind]
        · simp [evaluateCorrectness, hkind, hstep1, hk, ho, h1, h2, hf]

theorem c5_amended_room_locate_scoring_witness :
    evaluateCorrectness whereFamTask (some "room1") = some true ↔
      objOF1.is_familiar = true ∧ objOF1.room_id = some "room1" ∧
        "room1" ≠ "je_ne_sais_pas" ∧ "room1" ≠ "ne_repond_pas" :=
  (c5_amended_room_locate_scoring whereFamTask objOF1 rfl rfl).1 "room1"

/-- C3: with the default target of 5 per side, balanced sampling returns
exactly 5 ground-truth-correct and 5 ground-truth-incorrect trials (10 in
all) whenever both subsets hold at least 5 entries; otherwise it returns
the whole pool (as a permutation — the two shuffled subsets unfiltered). -/
theorem c3_balanced_sampling (trials : List Trial) (s : Nat) :
    (5 ≤ (trials.filter (fun t => t.is_correct)).length →
      5 ≤ (trials.filter (fun t => !t.is_correct)).length →
      ((pickBalancedTrials trials s 5).1.filter
          (fun t => t.is_correct)).length = 5 ∧
      ((pickBalancedTrials trials s 5).1.filter
          (fun t => !t.is_correct)).length = 5 ∧
      (pickBalancedTrials trials s 5).1.length = 10) ∧
    ((trials.filter (fun t => t.is_correct)).length < 5 ∨
      (trials.filter (fun t => !t.is_correct)).length < 5 →
      List.Perm (pickBalancedTrials trials s 5).1 trials) := by
  have hc : List.Perm
      (shuffleList s (trials.filter (fun t => t.is_correct))).1
      (trials.filter (fun t => t.is_correct)) := shuffleList_perm _ _
  have hi : List.Perm
      (shuffleList (shuffleList s
          (trials.filter (fun t => t.is_correct))).2
        (trials.filter (fun t => !t.is_correct))).1
      (trials.filter (fun t => !t.is_correct)) := shuffleList_perm _ _
  have hclen := hc.length_eq
  have hilen := hi.length_eq
  constructor
  · intro h1 h2
    have hcond : 5 ≤ (shuffleList s
          (trials.filter (fun t => t.is_correct))).1.length ∧
        5 ≤ (shuffleList (shuffleList s
            (trials.filter (fun t => t.is_correct))).2
          (trials.filter (fun t => !t.is_correct))).1.length := by
      constructor
      · rw [hclen]; exact h1
      · rw [hilen]; exact h2
    have hresult : (pickBalancedTrials trials s 5).1 =
        (shuffleList s (trials.filter (fun t => t.is_correct))).1.take 5 ++
        (shuffleList (shuffleList s
            (trials.filter (fun t => t.is_correct))).2
          (trials.filter (fun t => !t.is_correct))).1.take 5 := by
      simp only [pickBalancedTrials]
      rw [if_pos hcond]
    have hcorrTrue : ∀ t ∈ (shuffleList s
        (trials.filter (fun t => t.is_correct))).1.take 5,
        t.is_correct = true := by
      intro t ht
      have := hc.mem_iff.mp (List.mem_of_mem_take ht)
      exact (List.mem_filter.mp this).2
    have hincFalse : ∀ t ∈ (shuffleList (shuffleList s
        (trials.filter (fun t => t.is_correct))).2
        (trials.filter (fun t => !t.is_correct))).1.take 5,
        t.is_correct = false := by
      intro t ht
      have := hi.mem_iff.mp (List.mem_of_mem_take ht)
      have hb := (List.mem_filter.mp this).2
      simp only [Bool.not_eq_true'] at hb
      exact hb
    have hlen1 : ((shuffleList s
        (trials.filter (fun t => t.is_correct))).1.take 5).length = 5 := by
      rw [List.length_take]
      omega
    have hlen2 : ((shuffleList (shuffleList s
        (trials.filter (fun t => t.is_correct))).2
        (trials.filter (fun t => !t.is_correct))).1.take 5).length = 5 := by
      rw [List.length_take]
      omega
    refine ⟨?_, ?_, ?_⟩
    · rw [hresult, List.filter_append]
      have e1 : ((shuffleList s
          (trials.filter (fun t => t.is_correct))).1.take 5).filter
            (fun t => t.is_correct) =
          (shuffleList s
            (trials.filter (fun t => t.is_correct))).1.take 5 :=
        List.filter_eq_self.mpr hcorrTrue
      have e2 : ((shuffleList (shuffleList s
          (trials.filter (fun t => t.is_correct))).2
          (trials.filter (fun t => !t.is_correct))).1.take 5).filter
            (fun t => t.is_correct) = [] := by
        rw [List.filter_eq_nil_iff]
        intro t ht
        simp [hincFalse t ht]
      rw [e1, e2, List.append_nil, hlen1]
    · rw [hresult, List.filter_append]
      have e1 : ((shuffleList s
          (trials.filter (fun t => t.is_correct))).1.take 5).filter
            (fun t => !t.is_correct) = [] := by
        rw [List.filter_eq_nil_iff]
        intro t ht
        simp [hcorrTrue t ht]
      have e2 : ((shuffleList (shuffleList s
          (trials.filter (fun t => t.is_correct))).2
          (trials.filter (fun t => !t.is_correct))).1.take 5).filter
            (fun t => !t.is_correct) =
          (shuffleList (shuffleList s
            (trials.filter (fun t => t.is_correct))).2
            (trials.filter (fun t => !t.is_correct))).1.take 5 := by
        apply List.filter_eq_self.mpr
        intro t ht
        simp [hincFalse t ht]
      rw [e1, e2, List.nil_append, hlen2]
    · rw [hresult, List.length_append, hlen1, hlen2]
  · intro h
    have hcond : ¬ (5 ≤ (shuffleList s
          (trials.filter (fun t => t.is_correct))).1.length ∧
        5 ≤ (shuffleList (shuffleList s
            (trials.filter (fun t => t.is_correct))).2
          (trials.filter (fun t => !t.is_correct))).1.length) := by
      rw [hclen, hilen]
      omega
    have hresult : (pickBalancedTrials trials s 5).1 =
        (shuffleList s (trials.filter (fun t => t.is_correct))).1 ++
        (shuffleList (shuffleList s
            (trials.filter (fun t => t.is_correct))).2
          (trials.filter (fun t => !t.is_correct))).1 := by
      simp only [pickBalancedTrials]
      rw [if_neg hcond]
    rw [hresult]
    exact List.Perm.trans (List.Perm.append hc hi)
      (List.filter_append_perm _ trials)

theorem c3_balanced_sampling_witness :
    5 ≤ (demoData.rappel_immediat_trials.filter
        (fun t => t.is_correct)).length ∧
    5 ≤ (demoData.rappel_immediat_trials.filter
        (fun t => !t.is_correct)).length ∧
    (((pickBalancedTrials demoData.rappel_immediat_trials 3 5).1.filter
        (fun t => t.is_correct)).length = 5 ∧
      ((pickBalancedTrials demoData.rappel_immediat_trials 3 5).1.filter
        (fun t => !t.is_correct)).length = 5 ∧
      (pickBalancedTrials demoData.rappel_immediat_trials 3 5).1.length =
        10) :=
  ⟨by decide, by decide,
    (c3_balanced_sampling demoData.rappel_immediat_trials 3).1
      (by decide) (by decide)⟩

/-- Queue shape after finalization: the only mutation is the splice of the
injected follow-ups right after the cursor, and only on a Stage-I "yes". -/
theorem finalize_queue_eq (s : AppState) (e : ℚ) (i : String) (tm f : Bool)
    (task : QTask) (p : ℚ) (obj : Obj)
    (hact : s.task_active = true) (hcur : s.current_task = some task)
    (hsp : s.task_start_perf = some p) (hobj : task.object = some obj) :
    (finalizeCurrentTask s e i tm f).task_queue =
      (if task.kind = "step1" ∧
          responseValueOf tm s.selected_choice_id = some "yes" then
        s.task_queue.take ((s.current_task_index + 1).toNat) ++
          (injectedTasks s.data obj s.global_rng).1 ++
          s.task_queue.drop ((s.current_task_index + 1).toNat)
      else s.task_queue) := by
  simp only [finalizeCurrentTask, hact, hcur, hsp]
  rw [if_neg (by simp)]
  split <;> simp [hobj]

/-- C1: finalizing a Stage-I task whose recorded response is "yes" splices
exactly two new tasks into the queue immediately after the cursor — first a
Stage-IIA room-locate task, then a Stage-IIB spatial-position task whose
choice set is (a shuffle of) the good/bad pair for a familiar object and
the bad1/bad2 pair of incorrect variants for a novel one; any other
finalization leaves the queue unchanged, and no task is ever removed. -/
theorem c1_stage1_yes_inserts_iia_iib (s : AppState) (task : QTask)
    (obj : Obj) (e : ℚ) (i : String) (tm f : Bool) (p : ℚ)
    (hact : s.task_active = true) (hcur : s.current_task = some task)
    (hsp : s.task_start_perf = some p) (hobj : task.object = some obj) :
    (task.kind = "step1" ∧
        responseValueOf tm s.selected_choice_id = some "yes" →
      ∃ iia iib : QTask,
        (finalizeCurrentTask s e i tm f).task_queue =
          s.task_queue.take ((s.current_task_index + 1).toNat) ++
            [iia, iib] ++
            s.task_queue.drop ((s.current_task_index + 1).toNat) ∧
        iia.kind = "step2_where" ∧ iia.stage = "IIA" ∧
        iib.kind = "step2_spatial" ∧ iib.stage = "IIB" ∧
        List.Perm iib.choices (iibChoicesFor s.data obj) ∧
        (obj.is_familiar = true →
          List.Perm (iib.choices.map Choice.is_correct) [true, false]) ∧
        (obj.is_familiar = false →
          List.Perm (iib.choices.map Choice.is_correct) [false, false])) ∧
    (¬ (task.kind = "step1" ∧
        responseValueOf tm s.selected_choice_id = some "yes") →
      (finalizeCurrentTask s e i tm f).task_queue = s.task_queue) := by
  constructor
  · intro h
    rw [finalize_queue_eq s e i tm f task p obj hact hcur hsp hobj,
      if_pos h]
    refine ⟨iiaTaskFor s.data obj, iibTaskFor s.data obj s.global_rng,
      rfl, rfl, rfl, rfl, rfl, shuffleList_perm _ _, ?_, ?_⟩
    · intro hf
      have hm := (shuffleList_perm s.global_rng
        (iibChoicesFor s.data obj)).map Choice.is_correct
      have he : (iibChoicesFor s.data obj).map Choice.is_correct =
          [true, false] := by
        simp [iibChoicesFor, hf]
      rwa [he] at hm
    · intro hf
      have hm := (shuffleList_perm s.global_rng
        (iibChoicesFor s.data obj)).map Choice.is_correct
      have he : (iibChoicesFor s.data obj).map Choice.is_correct =
          [false, false] := by
        simp [iibChoicesFor, hf]
      rwa [he] at hm
  · intro h
    rw [finalize_queue_eq s e i tm f task p obj hact hcur hsp hobj,
      if_neg h]

theorem c1_stage1_yes_inserts_iia_iib_witness :
    step1DemoTask.kind = "step1" ∧
    responseValueOf false
      ({ demoActiveState with
          selected_choice_id := some "yes" } : AppState).selected_choice_id
        = some "yes" ∧
    (∃ iia iib : QTask,
      (finalizeCurrentTask
          { demoActiveState with selected_choice_id := some "yes" }
          7 "iso" false true).task_queue =
        ({ demoActiveState with
            selected_choice_id := some "yes" } : AppState).task_queue.take
          ((({ demoActiveState with
              selected_choice_id := some "yes" } :
                AppState).current_task_index + 1).toNat) ++
          [iia, iib] ++
          ({ demoActiveState with
              selected_choice_id := some "yes" } : AppState).task_queue.drop
          ((({ demoActiveState with
              selected_choice_id := some "yes" } :
                AppState).current_task_index + 1).toNat) ∧
      iia.kind = "step2_where" ∧ iia.stage = "IIA" ∧
      iib.kind = "step2_spatial" ∧ iib.stage = "IIB" ∧
      List.Perm iib.choices
        (iibChoicesFor ({ demoActiveState with
            selected_choice_id := some "yes" } : AppState).data objOF1) ∧
      (objOF1.is_familiar = true →
        List.Perm (iib.choices.map Choice.is_correct) [true, false]) ∧
      (objOF1.is_familiar = false →
        List.Perm (iib.choices.map Choice.is_correct) [false, false])) :=
  ⟨rfl, rfl,
    (c1_stage1_yes_inserts_iia_iib
      { demoActiveState with selected_choice_id := some "yes" }
      step1DemoTask objOF1 7 "iso" false true 5
      rfl rfl rfl rfl).1 ⟨rfl, rfl⟩⟩

/-- C8: a response choice submitted while no task is active is never
processed — the choice handler and the non-forced finalize path are no-ops
then, leaving the records, stage scores, task queue and cursor untouched;
and immediately after any (forced) finalization no task is active any
more, so a second choice cannot finalize the same task again. -/
theorem c8_no_reentry_when_inactive (s : AppState) (c c2 : String)
    (t t2 : ℚ) (iso iso2 : String) (tm : Bool)
    (hc : s.current_task.isSome = true)
    (hp : s.task_start_perf.isSome = true) :
    (s.task_active = false →
      onChoice s c t iso = s ∧ finalizeCurrentTask s t iso tm false = s) ∧
    onChoice (finalizeCurrentTask s t iso tm true) c2 t2 iso2 =
      finalizeCurrentTask s t iso tm true := by
  constructor
  · intro h
    constructor
    · simp [onChoice, h]
    · rw [finalizeCurrentTask, if_pos ⟨h, rfl⟩]
  · obtain ⟨task, hcur⟩ := Option.isSome_iff_exists.mp hc
    obtain ⟨p, hsp⟩ := Option.isSome_iff_exists.mp hp
    have hta : (finalizeCurrentTask s t iso tm true).task_active = false := by
      simp [finalizeCurrentTask, hcur, hsp]
    simp [onChoice, hta]

theorem c8_no_reentry_when_inactive_witness :
    demoActiveState.current_task.isSome = true ∧
    demoActiveState.task_start_perf.isSome = true ∧
    onChoice (finalizeCurrentTask demoActiveState 7 "iso" true true)
        "no" 8 "iso2" =
      finalizeCurrentTask demoActiveState 7 "iso" true true :=
  ⟨rfl, rfl,
    (c8_no_reentry_when_inactive demoActiveState "yes" "no" 7 8
      "iso" "iso2" true rfl rfl).2⟩

theorem iiaAttempts_perm :
    ∀ (n : Nat) (s : Nat) (cur : List Room) (lo : List String),
      List.Perm (iiaAttempts s cur lo n).1 cur := by
  intro n
  induction n with
  | zero => intro s cur lo; exact List.Perm.refl _
  | succ k ih =>
      intro s cur lo
      simp only [iiaAttempts]
      split
      · exact shuffleList_perm _ _
      · exact List.Perm.trans (ih _ _ _) (shuffleList_perm _ _)

/-- A list equal to its own rotation by one is constant. -/
theorem rotate_fixed_all_eq {α : Type} :
    ∀ (xs : List α) (x : α), xs ++ [x] = x :: xs →
      ∀ a ∈ x :: xs, a = x := by
  intro xs
  induction xs with
  | nil =>
      intro x _ a ha
      simpa using ha
  | cons y ys ih =>
      intro x h a ha
      rw [List.cons_append, List.cons.injEq] at h
      obtain ⟨hyx, hrest⟩ := h
      subst hyx
      have hAll := ih y hrest
      rcases List.mem_cons.mp ha with h1 | h1
      · exact h1
      · exact hAll a h1

theorem filteredIds_eq_roomIds (l : List Room)
    (h : ∀ r ∈ l, r.id ≠ "") : filteredIds l = roomIds l := by
  unfold filteredIds roomIds
  apply List.filter_eq_self.mpr
  intro a ha
  obtain ⟨r, hr, rfl⟩ := List.mem_map.mp ha
  simpa using h r hr

theorem roomIds_rotate (l : List Room) :
    roomIds (l.drop 1 ++ l.take 1) =
      (roomIds l).drop 1 ++ (roomIds l).take 1 := by
  simp [roomIds, List.map_take, List.map_drop]

/-- C4 counterexample: on a catalog with a single room, the learning order
and the secondary IIA order are the identical (one-element) sequence,
because every shuffle and the rotate-by-one fallback reproduce a
one-element list. -/
theorem c4_counterexample_one_room :
    (buildTasks oneRoomData "recall" 0).iia_room_order =
      (buildTasks oneRoomData "recall" 0).learning_room_order := by
  decide

/-- C4 (amended): whenever the catalog's rooms all carry non-empty ids and
at least two rooms have different ids, recall-mode queue construction
produces a secondary (IIA) room-id order that differs from the learning
order as a whole sequence; and whenever all five reshuffle attempts
reproduce the learning order, the fallback applied is exactly the
rotation of the sequence by one position. -/
theorem c4_amended_secondary_order_differs (d : Data) (s : Nat)
    (hids : ∀ r ∈ d.rooms, r.id ≠ "")
    (hdist : ∃ r1 ∈ d.rooms, ∃ r2 ∈ d.rooms, r1.id ≠ r2.id) :
    (buildTasks d "recall" s).iia_room_order ≠
      (buildTasks d "recall" s).learning_room_order ∧
    (∀ (s2 : Nat) (rooms : List Room) (lo : List String),
      roomIds (iiaAttempts s2 rooms lo 5).1 = lo →
      (iiaAttempts s2 rooms lo 5).1 ≠ [] →
      (iiaRooms s2 rooms lo).1 =
        (iiaAttempts s2 rooms lo 5).1.drop 1 ++
          (iiaAttempts s2 rooms lo 5).1.take 1) := by
  constructor
  · obtain ⟨r1, hr1, r2, hr2, hne⟩ := hdist
    have hmode : buildTasks d "recall" s = buildTasksRecall d s := by
      simp [buildTasks]
    rw [hmode]
    show filteredIds (iiaRooms (shuffleList s d.rooms).2 d.rooms
        (filteredIds (shuffleList s d.rooms).1)).1 ≠
      filteredIds (shuffleList s d.rooms).1
    have hRL : List.Perm (shuffleList s d.rooms).1 d.rooms :=
      shuffleList_perm _ _
    have hRLids : ∀ r ∈ (shuffleList s d.rooms).1, r.id ≠ "" :=
      fun r hr => hids r (hRL.mem_iff.mp hr)
    have hL : filteredIds (shuffleList s d.rooms).1 =
        roomIds (shuffleList s d.rooms).1 :=
      filteredIds_eq_roomIds _ hRLids
    have hr1id : r1.id ∈ filteredIds (shuffleList s d.rooms).1 := by
      rw [hL]
      exact List.mem_map_of_mem Room.id (hRL.mem_iff.mpr hr1)
    have hr2id : r2.id ∈ filteredIds (shuffleList s d.rooms).1 := by
      rw [hL]
      exact List.mem_map_of_mem Room.id (hRL.mem_iff.mpr hr2)
    have hA : List.Perm (iiaAttempts (shuffleList s d.rooms).2 d.rooms
        (filteredIds (shuffleList s d.rooms).1) 5).1 d.rooms :=
      iiaAttempts_perm _ _ _ _
    have hAids : ∀ r ∈ (iiaAttempts (shuffleList s d.rooms).2 d.rooms
        (filteredIds (shuffleList s d.rooms).1) 5).1, r.id ≠ "" :=
      fun r hr => hids r (hA.mem_iff.mp hr)
    simp only [iiaRooms]
    split
    · next hcase =>
        obtain ⟨hceq, hcne⟩ := hcase
        have hrotIds : ∀ r ∈ ((iiaAttempts (shuffleList s d.rooms).2
            d.rooms (filteredIds (shuffleList s d.rooms).1) 5).1.drop 1 ++
            (iiaAttempts (shuffleList s d.rooms).2 d.rooms
              (filteredIds (shuffleList s d.rooms).1) 5).1.take 1),
            r.id ≠ "" := by
          intro r hr
          rcases List.mem_append.mp hr with h | h
          · exact hAids r (List.mem_of_mem_drop h)
          · exact hAids r (List.mem_of_mem_take h)
        rw [filteredIds_eq_roomIds _ hrotIds, roomIds_rotate, hceq]
        intro hbad
        cases hLcase : filteredIds (shuffleList s d.rooms).1 with
        | nil => rw [hLcase] at hr1id; simp at hr1id
        | cons x xs =>
            rw [hLcase] at hbad
            simp only [List.drop_succ_cons, List.drop_zero,
              List.take_succ_cons, List.take_zero] at hbad
            have hall := rotate_fixed_all_eq xs x hbad
            rw [hLcase] at hr1id hr2id
            exact hne ((hall r1.id hr1id).trans
              (hall r2.id hr2id).symm)
    · next hcase =>
        rw [Classical.not_and_iff_or_not_not] at hcase
        rcases hcase with h | h
        · rw [filteredIds_eq_roomIds _ hAids]
          exact h
        · exfalso
          have hAnil : (iiaAttempts (shuffleList s d.rooms).2 d.rooms
              (filteredIds (shuffleList s d.rooms).1) 5).1 = [] := by
            by_contra hcon
            exact h hcon
          have : r1 ∈ (iiaAttempts (shuffleList s d.rooms).2 d.rooms
              (filteredIds (shuffleList s d.rooms).1) 5).1 :=
            hA.mem_iff.mpr hr1
          rw [hAnil] at this
          simp at this
  · intro s2 rooms lo h1 h2
    simp only [iiaRooms]
    rw [if_pos ⟨h1, h2⟩]

theorem c4_amended_secondary_order_differs_witness :
    (∀ r ∈ demoData.rooms, r.id ≠ "") ∧
    (∃ r1 ∈ demoData.rooms, ∃ r2 ∈ demoData.rooms, r1.id ≠ r2.id) ∧
    (buildTasks demoData "recall" 0).iia_room_order ≠
      (buildTasks demoData "recall" 0).learning_room_order :=
  ⟨by decide, by decide,
    (c4_amended_secondary_order_differs demoData 0 (by decide)
      (by decide)).1⟩

theorem annotate_preserves_stage_correct (t : QTask) (r : Option String)
    (rec : Record) :
    (annotateRecordMetrics t r rec).stage = rec.stage ∧
    (annotateRecordMetrics t r rec).is_correct = rec.is_correct := by
  unfold annotateRecordMetrics
  cases r with
  | none => exact ⟨rfl, rfl⟩
  | some r =>
      repeat' split
      all_goals exact ⟨rfl, rfl⟩

theorem mkRecord_stage_correct (task : QTask) (startedIso : Option String)
    (endIso : String) (dur : Nat) (act : Int) (rv : Option String)
    (tm : Bool) (correct : Option Bool) :
    (mkRecord task startedIso endIso dur act rv tm correct).stage =
      task.stage ∧
    (mkRecord task startedIso endIso dur act rv tm correct).is_correct =
      correct := by
  unfold mkRecord
  exact ⟨(annotate_preserves_stage_correct task rv _).1,
    (annotate_preserves_stage_correct task rv _).2⟩

theorem length_filter_singleton {α : Type} (p : α → Bool) (a : α) :
    (List.filter p [a]).length = if p a then 1 else 0 := by
  rw [List.filter_cons]
  split <;> simp

theorem recordCountTotal_append (recs : List Record) (r : Record)
    (st : String) :
    recordCountTotal (recs ++ [r]) st =
      recordCountTotal recs st +
        (if r.stage = st ∧ r.is_correct ≠ none then 1 else 0) := by
  unfold recordCountTotal
  rw [List.filter_append, List.length_append, length_filter_singleton]
  congr 1
  split <;> split <;> simp_all

theorem recordCountCorrect_append (recs : List Record) (r : Record)
    (st : String) :
    recordCountCorrect (recs ++ [r]) st =
      recordCountCorrect recs st +
        (if r.stage = st ∧ r.is_correct = some true then 1 else 0) := by
  unfold recordCountCorrect
  rw [List.filter_append, List.length_append, length_filter_singleton]
  congr 1
  split <;> split <;> simp_all

theorem scoresConsistent_finalize (s : AppState) (e : ℚ) (i : String)
    (tm f : Bool) (h : scoresConsistent s) :
    scoresConsistent (finalizeCurrentTask s e i tm f) := by
  unfold finalizeCurrentTask
  split
  · exact h
  · split
    · next task startPerf _ _ =>
        intro st hst
        obtain ⟨h1, h2⟩ := h st hst
        dsimp only
        rw [recordCountTotal_append, recordCountCorrect_append,
          (mkRecord_stage_correct task _ _ _ _ _ _ _).1,
          (mkRecord_stage_correct task _ _ _ _ _ _ _).2]
        unfold scoresAfter
        cases hc : evaluateCorrectness task
          (responseValueOf tm s.selected_choice_id) with
        | none => simp [h1, h2]
        | some b =>
            dsimp only
            by_cases hmem : task.stage ∈ stageKeys
            · rw [if_pos hmem]
              by_cases hstq : st = task.stage
              · subst hstq
                rw [if_pos rfl]
                constructor
                · simp [h1]
                · cases b <;> simp [h2]
              · have hne : ¬ (task.stage = st) := fun hh => hstq hh.symm
                rw [if_neg hstq, if_neg (by simp [hne]),
                  if_neg (by simp [hne])]
                simp [h1, h2]
            · have hne : ¬ (task.stage = st) := fun hh => hmem (hh ▸ hst)
              rw [if_neg hmem, if_neg (by simp [hne]),
                if_neg (by simp [hne])]
              simp [h1, h2]
    · exact h

theorem scoresConsistent_onChoice (s : AppState) (c : String) (t : ℚ)
    (iso : String) (h : scoresConsistent s) :
    scoresConsistent (onChoice s c t iso) := by
  unfold onChoice
  split
  · exact h
  · exact scoresConsistent_finalize _ _ _ _ _
      (fun st hst => h st hst)

theorem scoresConsistent_stopSession (s : AppState) (t : ℚ) (iso : String)
    (h : scoresConsistent s) :
    scoresConsistent (stopSession s t iso) := by
  unfold stopSession
  have h1 := scoresConsistent_finalize s t iso true false h
  dsimp only
  split
  · exact h1
  · exact fun st hst => h1 st hst

theorem scoresConsistent_goToNextTask (s : AppState) (t : ℚ)
    (iso : String) (h : scoresConsistent s) :
    scoresConsistent (goToNextTask s t iso) := by
  unfold goToNextTask
  split
  · exact h
  · dsimp only
    split
    · exact scoresConsistent_stopSession _ _ _ (fun st hst => h st hst)
    · split
      · exact fun st hst => h st hst
      · exact h

theorem scoresConsistent_timerTick (s : AppState) (t : ℚ) (iso : String)
    (h : scoresConsistent s) :
    scoresConsistent (timerTick s t iso) := by
  unfold timerTick
  split
  · exact h
  · split
    · split
      · exact scoresConsistent_goToNextTask _ _ _
          (fun st hst => h st hst)
      · exact h
    · split
      · split
        · exact scoresConsistent_finalize _ _ _ _ _ h
        · exact h
      · exact h

theorem scoresConsistent_jump (s : AppState) (idx : Nat) (t : ℚ)
    (iso : String) (h : scoresConsistent s) :
    scoresConsistent (jumpToQuestion s idx t iso) := by
  unfold jumpToQuestion
  split
  · exact h
  · apply scoresConsistent_goToNextTask
    intro st hst
    split
    · exact scoresConsistent_finalize _ _ _ _ _ h st hst
    · exact h st hst

theorem scoresConsistent_step (s : AppState) (ev : Ev)
    (h : scoresConsistent s) : scoresConsistent (stepEv s ev) := by
  cases ev with
  | choice c t iso => exact scoresConsistent_onChoice s c t iso h
  | tick t iso => exact scoresConsistent_timerTick s t iso h
  | stop t iso => exact scoresConsistent_stopSession s t iso h
  | next t iso => exact scoresConsistent_goToNextTask s t iso h
  | jump i t iso => exact scoresConsistent_jump s i t iso h

theorem scoresConsistent_runEvents :
    ∀ (evs : List Ev) (s : AppState), scoresConsistent s →
      scoresConsistent (runEvents s evs) := by
  intro evs
  induction evs with
  | nil => intro s h; exact h
  | cons e es ih =>
      intro s h
      exact ih (stepEv s e) (scoresConsistent_step s e h)

theorem scoresConsistent_initial (d : Data) (q : List QTask) (rng : Nat) :
    scoresConsistent (initialState d q rng) :=
  fun _ _ => ⟨rfl, rfl⟩

/-- C7: after any sequence of driver events from a fresh session — a full
recall-mode run in particular — every tracked stage tally satisfies
`total` = number of finalized records carrying that stage with a non-null
correctness and `correct` = number of those scored correct; in
particular the total never exceeds that record count at any point. -/
theorem c7_stage_scores_match_records (d : Data) (q : List QTask)
    (rng : Nat) (evs : List Ev) (st : String) (hst : st ∈ stageKeys) :
    ((runEvents (initialState d q rng) evs).stage_scores st).total =
      recordCountTotal (runEvents (initialState d q rng) evs).records st ∧
    ((runEvents (initialState d q rng) evs).stage_scores st).correct =
      recordCountCorrect (runEvents (initialState d q rng) evs).records st
    :=
  scoresConsistent_runEvents evs (initialState d q rng)
    (scoresConsistent_initial d q rng) st hst

theorem c7_stage_scores_match_records_witness :
    "I" ∈ stageKeys ∧
    (((runEvents (initialState demoData [step1DemoTask] 3)
        demoEvents).stage_scores "I").total =
      recordCountTotal (runEvents (initialState demoData [step1DemoTask] 3)
        demoEvents).records "I" ∧
    ((runEvents (initialState demoData [step1DemoTask] 3)
        demoEvents).stage_scores "I").correct =
      recordCountCorrect (runEvents
        (initialState demoData [step1DemoTask] 3) demoEvents).records "I") :=
  ⟨by decide,
    c7_stage_scores_match_records demoData [step1DemoTask] 3 demoEvents
      "I" (by decide)⟩
